import Mathlib

/-!
Verification of the terminal-buddy daemon lifecycle and client/server
dispatch logic (src/terminal_buddy/main.py), as a shallow embedding.

Strings exchanged over the socket and inspected in subprocess output are
modelled as lists of characters; `recv(1024)` is `List.take 1024`;
Python substring membership (`a in b`) is an explicit infix check.
OS-level facts (process liveness, the stdout of the port inspection
utility, the state of the pid file) are fields of an explicit `World`.
Exceptions are modelled with `Except`: an uncaught Python exception is
an `Except.error`.
-/

namespace TerminalBuddy

/-- A JSON value, as produced by Python `json.load`. -/
inductive Json where
  | null
  | bool (b : Bool)
  | int (n : Int)
  | str (s : String)
  | arr (elems : List Json)
  | obj (fields : List (String × Json))

/-- Python exceptions that the code under study can leave uncaught. -/
inductive PyError where
  | permissionError
  | typeError
deriving DecidableEq

/-- Observable state of the pid file at `/tmp/tb_server.pid`. -/
inductive PidFileState where
  | missing
  | unreadable
  | invalidJson
  | validJson (v : Json)

/-- Key lookup in a decoded JSON object (`data[key]`); `none` models `KeyError`. -/
def lookupField : List (String × Json) → String → Option Json
  | [], _ => none
  | (k, v) :: rest, key => if k = key then some v else lookupField rest key

/-- `TBuddyServer.load_pid`: reads the pid file and returns `data[pid]`.
`except (FileNotFoundError, json.JSONDecodeError, KeyError): return None`
is the only handler, so an unreadable file (`PermissionError`) or a JSON
value that is not an object (`TypeError` on subscripting) propagates. -/
def load_pid : PidFileState → Except PyError (Option Json)
  | PidFileState.missing => Except.ok none
  | PidFileState.unreadable => Except.error PyError.permissionError
  | PidFileState.invalidJson => Except.ok none
  | PidFileState.validJson (Json.obj fields) =>
      match lookupField fields "pid" with
      | some v => Except.ok (some v)
      | none => Except.ok none
  | PidFileState.validJson _ => Except.error PyError.typeError

/-- `startsWith` on character lists: does the first list begin with the second? -/
def listStartsWith : List Char → List Char → Bool
  | _, [] => true
  | [], _ :: _ => false
  | a :: as, b :: bs => a == b && listStartsWith as bs

/-- Python substring membership `needle in haystack` on decoded text. -/
def strIn (needle : List Char) : List Char → Bool
  | [] => needle.isEmpty
  | c :: rest => listStartsWith (c :: rest) needle || strIn needle rest

/-- OS-level world visible to the supervisor: the pid file, which
process ids are alive (a successful `os.kill(p, 0)`), and the stdout
of `lsof -i :65432`. -/
structure World where
  pidFile : PidFileState
  alive : Int → Bool
  lsofStdout : List Char

/-- An OS-visible action performed by a supervisor operation. -/
inductive Effect where
  | signalProc (pid : Int) (sig : Nat)
  | runLsof
  | removePidFile
  | writePidFile (pid : Int)
deriving DecidableEq

/-- Whether an effect changes system state: the signal-0 probe and the
port inspection are read-only; delivered signals and pid-file writes and
removals are not. -/
def Effect.mutating : Effect → Bool
  | Effect.signalProc _ 0 => false
  | Effect.signalProc _ _ => true
  | Effect.runLsof => false
  | Effect.removePidFile => true
  | Effect.writePidFile _ => true

/-- `TBuddyServer.is_server_running`: load the pid; absent pid means not
running; probe liveness with `os.kill(pid, 0)` (an `OSError` is caught and
means not running); otherwise report whether `str(pid)` occurs in the
stdout of `lsof -i :65432`. A non-integer pid makes `os.kill` raise
`TypeError`, which the `except OSError` clause does not catch.
The second component records the OS actions taken. -/
def is_server_running (w : World) : Except PyError (Bool × List Effect) :=
  match load_pid w.pidFile with
  | Except.error e => Except.error e
  | Except.ok none => Except.ok (false, [])
  | Except.ok (some (Json.int p)) =>
      if w.alive p then
        Except.ok (strIn (toString p).data w.lsofStdout,
          [Effect.signalProc p 0, Effect.runLsof])
      else
        Except.ok (false, [Effect.signalProc p 0])
  | Except.ok (some _) => Except.error PyError.typeError

/-- The message family printed by `TBuddyServer.status`. -/
inductive StatusReport where
  | notRunning
  | processNotFound
  | runningReady (pid : Int)
  | startingUp (pid : Int)
deriving DecidableEq

/-- `TBuddyServer.status`: absent pid reports not running; a dead pid
reports process-not-found (may have crashed); a live pid reports ready
when `str(pid)` occurs in the port inspection stdout and starting-up
otherwise. -/
def status (w : World) : Except PyError (StatusReport × List Effect) :=
  match load_pid w.pidFile with
  | Except.error e => Except.error e
  | Except.ok none => Except.ok (StatusReport.notRunning, [])
  | Except.ok (some (Json.int p)) =>
      if w.alive p then
        if strIn (toString p).data w.lsofStdout then
          Except.ok (StatusReport.runningReady p,
            [Effect.signalProc p 0, Effect.runLsof])
        else
          Except.ok (StatusReport.startingUp p,
            [Effect.signalProc p 0, Effect.runLsof])
      else
        Except.ok (StatusReport.processNotFound, [Effect.signalProc p 0])
  | Except.ok (some _) => Except.error PyError.typeError

/-- The message family printed by `TBuddyServer.stop`. -/
inductive StopReport where
  | notRunning
  | pidFileNotFound
  | stoppedSuccessfully
  | errorStopping
deriving DecidableEq

/-- Environment for a `stop` call: the world plus the outcomes of the
race-prone OS interactions (whether `os.kill(pid, SIGTERM)` raises
`OSError` because the process vanished, and whether the process is still
alive when re-probed after the two-second grace wait). -/
structure StopEnv where
  w : World
  sigtermRaises : Bool
  aliveAfterGrace : Bool

/-- `TBuddyServer.stop`: return early when `is_server_running` is false;
otherwise send SIGTERM, wait, re-probe, force SIGKILL if still alive,
remove the pid file and report success. An `OSError` from the signaling
path is caught: the pid file is removed and an error message printed. -/
def stop (e : StopEnv) : Except PyError (StopReport × List Effect) :=
  match is_server_running e.w with
  | Except.error err => Except.error err
  | Except.ok (false, effs) => Except.ok (StopReport.notRunning, effs)
  | Except.ok (true, effs) =>
    match load_pid e.w.pidFile with
    | Except.error err => Except.error err
    | Except.ok none => Except.ok (StopReport.pidFileNotFound, effs)
    | Except.ok (some (Json.int p)) =>
        if e.sigtermRaises then
          Except.ok (StopReport.errorStopping, effs ++ [Effect.removePidFile])
        else if e.aliveAfterGrace then
          Except.ok (StopReport.stoppedSuccessfully,
            effs ++ [Effect.signalProc p 15, Effect.signalProc p 0,
                     Effect.signalProc p 9, Effect.removePidFile])
        else
          Except.ok (StopReport.stoppedSuccessfully,
            effs ++ [Effect.signalProc p 15, Effect.signalProc p 0,
                     Effect.removePidFile])
    | Except.ok (some _) => Except.error PyError.typeError

/-- The resources dict built by `TBuddyServer.build_resources`: one entry,
the prompt-selection template imported from the example-selection module.
The template type is opaque to this core. -/
structure Resources (Template : Type) where
  mmr_prompt_template : Template

/-- `TBuddyServer.build_resources`, instrumented: returns the bundle and
records one invocation (the second component counts calls). -/
def build_resources {Template : Type} (tmpl : Template) : Resources Template × Nat :=
  (⟨tmpl⟩, 1)

/-- `TBuddyServer.parse_request`: calls `build_resources` and passes the
query together with the bundled template to `get_terminal_command` (the
opaque generation collaborator `gtc`). The count component accumulates
`build_resources` invocations made during the call. -/
def parse_request {Template : Type} (gtc : List Char → Template → List Char)
    (tmpl : Template) (request : List Char) : List Char × Nat :=
  let built := build_resources tmpl
  (gtc request built.1.mmr_prompt_template, built.2)

/-- `TBuddyServer.handle_client`: receive at most 1024 bytes of the query,
resolve it through `parse_request`, send the full response back. -/
def handle_client {Template : Type} (gtc : List Char → Template → List Char)
    (tmpl : Template) (sent : List Char) : List Char × Nat :=
  parse_request gtc tmpl (sent.take 1024)

/-- Number of `build_resources` invocations over a daemon lifetime in which
`run_server` starts up (building once before binding) and the accept loop
then serves the given requests, each through `handle_client`. -/
def daemon_build_count {Template : Type} (gtc : List Char → Template → List Char)
    (tmpl : Template) (requests : List (List Char)) : Nat :=
  (build_resources tmpl).2 +
    (requests.map (fun r => (handle_client gtc tmpl r).2)).sum

/-- Python whitespace as stripped by `str.strip()` (ASCII subset). -/
def isPySpace (c : Char) : Bool :=
  c == ' ' || c == '\t' || c == '\n' || c == '\r' || c == '\x0b' || c == '\x0c'

/-- Python `str.strip()`: drop leading and trailing whitespace. -/
def pyStrip (s : List Char) : List Char :=
  ((s.dropWhile isPySpace).reverse.dropWhile isPySpace).reverse

/-- What the client prints after a successful daemon exchange: it sends the
whole query, the server truncates to its receive buffer inside
`handle_client`, the client reads back at most 1024 bytes of the response
and strips it (`s.recv(1024).decode().strip()`). -/
def daemon_path_output {Template : Type} (gtc : List Char → Template → List Char)
    (tmpl : Template) (q : List Char) : List Char :=
  pyStrip (((handle_client gtc tmpl q).1).take 1024)

/-- What the one-off local path prints: `server.parse_request(query_text)`
echoed verbatim. -/
def one_off_output {Template : Type} (gtc : List Char → Template → List Char)
    (tmpl : Template) (q : List Char) : List Char :=
  (parse_request gtc tmpl q).1

/-- Outcome of the socket exchange attempted inside the `try` block of the
`query` command: everything succeeds, or the named step raises. -/
inductive ExchangeOutcome where
  | allOk
  | connectRefused
  | connectOtherError
  | sendFails
  | recvFails
deriving DecidableEq

/-- Diagnostic messages `query` can echo besides the command itself. -/
inductive ClientMsg where
  | errorConnecting
  | fallingBackLocal
  | serverNotRunningLocal
deriving DecidableEq

/-- Result of one `tb query` invocation. -/
structure QueryResult where
  printed : List Char
  connectAttempted : Bool
  usedLocalResolution : Bool
  messages : List ClientMsg
deriving DecidableEq

/-- The `query` CLI command: if `is_server_running()` is true, enter a
`try` block that connects, sends and receives; the blanket
`except Exception` turns any failure there into a message pair followed by
local resolution. If `is_server_running()` is false, resolve locally at
once without touching the socket. -/
def query {Template : Type} (gtc : List Char → Template → List Char)
    (tmpl : Template) (w : World) (outcome : ExchangeOutcome)
    (q : List Char) : Except PyError QueryResult :=
  match is_server_running w with
  | Except.error e => Except.error e
  | Except.ok (true, _) =>
      match outcome with
      | ExchangeOutcome.allOk =>
          Except.ok ⟨daemon_path_output gtc tmpl q, true, false, []⟩
      | _ =>
          Except.ok ⟨one_off_output gtc tmpl q, true, true,
            [ClientMsg.errorConnecting, ClientMsg.fallingBackLocal]⟩
  | Except.ok (false, _) =>
      Except.ok ⟨one_off_output gtc tmpl q, false, true,
        [ClientMsg.serverNotRunningLocal]⟩

/-- The ordered steps of `TBuddyServer.start` / `run_server`. -/
inductive StartEvent where
  | alreadyRunningRefusal
  | spawnChild
  | savePid (pid : Int)
  | buildResources
  | bindSocket
  | listenSocket
  | acceptLoop
deriving DecidableEq

/-- The body of `TBuddyServer.run_server`: build resources, bind, listen,
enter the accept loop. -/
def run_server_events : List StartEvent :=
  [StartEvent.buildResources, StartEvent.bindSocket,
   StartEvent.listenSocket, StartEvent.acceptLoop]

/-- `TBuddyServer.start`: refuse when `is_server_running()`; with
`daemonize` spawn the detached child and return; otherwise save the
current pid and run `run_server` synchronously. -/
def start (w : World) (daemonize : Bool) (selfPid : Int) :
    Except PyError (List StartEvent) :=
  match is_server_running w with
  | Except.error e => Except.error e
  | Except.ok (true, _) => Except.ok [StartEvent.alreadyRunningRefusal]
  | Except.ok (false, _) =>
      if daemonize then Except.ok [StartEvent.spawnChild]
      else Except.ok (StartEvent.savePid selfPid :: run_server_events)

/-- Index of the pid-file write in a start trace. -/
def idxSavePid (evs : List StartEvent) : Nat :=
  evs.findIdx (fun e => match e with | StartEvent.savePid _ => true | _ => false)

/-- Index of the socket bind in a start trace. -/
def idxBindSocket (evs : List StartEvent) : Nat :=
  evs.findIdx (fun e => match e with | StartEvent.bindSocket => true | _ => false)

/-- Index of entry into the accept loop in a start trace. -/
def idxAcceptLoop (evs : List StartEvent) : Nat :=
  evs.findIdx (fun e => match e with | StartEvent.acceptLoop => true | _ => false)

/-- A stop call that is a no-op: it reports not-running and performs no
state-changing OS action. -/
def isNoopNotRunning : Except PyError (StopReport × List Effect) → Prop
  | Except.ok (r, effs) =>
      r = StopReport.notRunning ∧ ∀ x ∈ effs, Effect.mutating x = false
  | Except.error _ => False

theorem server_running_true_of (w : World) (p : Int)
    (hload : load_pid w.pidFile = Except.ok (some (Json.int p)))
    (halive : w.alive p = true)
    (hsub : strIn (toString p).data w.lsofStdout = true) :
    is_server_running w = Except.ok (true, [Effect.signalProc p 0, Effect.runLsof]) := by
  unfold is_server_running
  rw [hload]
  simp [halive, hsub]

theorem server_not_running_of_missing (w : World)
    (h : w.pidFile = PidFileState.missing) :
    is_server_running w = Except.ok (false, []) := by
  have hl : load_pid w.pidFile = Except.ok none := by rw [h]; rfl
  unfold is_server_running
  rw [hl]

theorem server_not_running_of_dead (w : World) (p : Int)
    (hload : load_pid w.pidFile = Except.ok (some (Json.int p)))
    (hdead : w.alive p = false) :
    is_server_running w = Except.ok (false, [Effect.signalProc p 0]) := by
  unfold is_server_running
  rw [hload]
  simp [hdead]

theorem server_not_running_of_unbound (w : World) (p : Int)
    (hload : load_pid w.pidFile = Except.ok (some (Json.int p)))
    (halive : w.alive p = true)
    (hsub : strIn (toString p).data w.lsofStdout = false) :
    is_server_running w = Except.ok (false, [Effect.signalProc p 0, Effect.runLsof]) := by
  unfold is_server_running
  rw [hload]
  simp [halive, hsub]

theorem running_true_inv (w : World) (effs : List Effect)
    (h : is_server_running w = Except.ok (true, effs)) :
    ∃ p, load_pid w.pidFile = Except.ok (some (Json.int p)) ∧
      w.alive p = true ∧ strIn (toString p).data w.lsofStdout = true ∧
      effs = [Effect.signalProc p 0, Effect.runLsof] := by
  unfold is_server_running at h
  cases hl : load_pid w.pidFile with
  | error e => rw [hl] at h; exact absurd h (by simp)
  | ok o =>
    rw [hl] at h
    cases o with
    | none => simp at h
    | some v =>
      cases v with
      | int p =>
        by_cases ha : w.alive p
        · simp [ha] at h
          exact ⟨p, rfl, ha, h.1, h.2.symm⟩
        · simp [ha] at h
      | null => simp at h
      | bool b => simp at h
      | str s => simp at h
      | arr xs => simp at h
      | obj fs => simp at h

theorem stop_of_not_running (e : StopEnv) (effs : List Effect)
    (h : is_server_running e.w = Except.ok (false, effs)) :
    stop e = Except.ok (StopReport.notRunning, effs) := by
  unfold stop
  rw [h]

/-- C5: the claim says load_pid returns absent and never raises for every
pid-file state, including an unreadable one; but an unreadable file raises
PermissionError, which the except clause does not catch. -/
theorem C5_counterexample :
    load_pid PidFileState.unreadable = Except.error PyError.permissionError := rfl

/-- C5 (amended): load_pid returns absent without raising when the file is
missing, when its content is not valid JSON, and when the decoded JSON
object lacks the pid key; an unreadable file or a non-object JSON value
propagates an exception instead. -/
theorem C5_amended :
    load_pid PidFileState.missing = Except.ok none ∧
    load_pid PidFileState.invalidJson = Except.ok none ∧
    (∀ fields : List (String × Json), lookupField fields "pid" = none →
      load_pid (PidFileState.validJson (Json.obj fields)) = Except.ok none) := by
  refine ⟨rfl, rfl, ?_⟩
  intro fields h
  have hstep : load_pid (PidFileState.validJson (Json.obj fields)) =
      (match lookupField fields "pid" with
        | some v => Except.ok (some v)
        | none => Except.ok none) := rfl
  rw [hstep, h]

/-- C5 witness: the amended theorem applied to an empty JSON object. -/
theorem C5_amended_witness :
    load_pid (PidFileState.validJson (Json.obj [])) = Except.ok none :=
  C5_amended.2.2 [] rfl

/-- C10: for a recorded pid whose process is alive, is_server_running
reports exactly whether the decimal string of the pid occurs as a
substring of the lsof stdout for the configured port. -/
theorem C10_running_iff_pid_substring (w : World) (p : Int)
    (hload : load_pid w.pidFile = Except.ok (some (Json.int p)))
    (halive : w.alive p = true) :
    (is_server_running w).map Prod.fst =
      Except.ok (strIn (toString p).data w.lsofStdout) := by
  unfold is_server_running
  rw [hload]
  simp [halive]
  rfl

/-- C10 witness: pid 123 is alive but not bound to the port; the lsof
stdout mentions a different pid 1234, whose text contains 123 as a
substring, so the server is reported as running. -/
theorem C10_witness :
    (is_server_running ⟨PidFileState.validJson (Json.obj [("pid", Json.int 123)]),
      fun p => p == 123, ['1', '2', '3', '4']⟩).map Prod.fst = Except.ok true := by
  have h := C10_running_iff_pid_substring
    ⟨PidFileState.validJson (Json.obj [("pid", Json.int 123)]),
      fun p => p == 123, ['1', '2', '3', '4']⟩ 123 rfl rfl
  rw [h]
  have hs : strIn (toString (123 : Int)).data ['1', '2', '3', '4'] = true := by decide
  rw [hs]

/-- C8: a recorded pid whose process is dead makes is_server_running
report false and status report process-not-found, and neither check
performs any state-changing OS action (in particular neither removes the
stale pid file). -/
theorem C8_stale_detection (w : World) (p : Int)
    (hload : load_pid w.pidFile = Except.ok (some (Json.int p)))
    (hdead : w.alive p = false) :
    is_server_running w = Except.ok (false, [Effect.signalProc p 0]) ∧
    status w = Except.ok (StatusReport.processNotFound, [Effect.signalProc p 0]) ∧
    (∀ x ∈ [Effect.signalProc p 0], Effect.mutating x = false) := by
  refine ⟨server_not_running_of_dead w p hload hdead, ?_, ?_⟩
  · unfold status
    rw [hload]
    simp [hdead]
  · intro x hx
    rw [List.mem_singleton] at hx
    rw [hx]
    rfl

/-- C8 witness: pid 77 recorded, process dead. -/
theorem C8_witness :
    is_server_running ⟨PidFileState.validJson (Json.obj [("pid", Json.int 77)]),
        fun _ => false, ['7', '7']⟩ =
      Except.ok (false, [Effect.signalProc 77 0]) ∧
    status ⟨PidFileState.validJson (Json.obj [("pid", Json.int 77)]),
        fun _ => false, ['7', '7']⟩ =
      Except.ok (StatusReport.processNotFound, [Effect.signalProc 77 0]) ∧
    (∀ x ∈ [Effect.signalProc 77 0], Effect.mutating x = false) :=
  C8_stale_detection _ 77 rfl rfl

/-- C9: stopping when no server is running (pid file absent, recorded
process dead, or live but not bound to the port) reports not-running,
raises nothing, and changes no system state. -/
theorem C9_idempotent_stop (e : StopEnv)
    (h : e.w.pidFile = PidFileState.missing ∨
      (∃ p, load_pid e.w.pidFile = Except.ok (some (Json.int p)) ∧
        e.w.alive p = false) ∨
      (∃ p, load_pid e.w.pidFile = Except.ok (some (Json.int p)) ∧
        e.w.alive p = true ∧
        strIn (toString p).data e.w.lsofStdout = false)) :
    isNoopNotRunning (stop e) := by
  rcases h with h | ⟨p, hload, hdead⟩ | ⟨p, hload, halive, hsub⟩
  · rw [stop_of_not_running e [] (server_not_running_of_missing e.w h)]
    exact ⟨rfl, by intro x hx; exact absurd hx (List.not_mem_nil x)⟩
  · rw [stop_of_not_running e _ (server_not_running_of_dead e.w p hload hdead)]
    refine ⟨rfl, ?_⟩
    intro x hx
    rw [List.mem_singleton] at hx
    rw [hx]
    rfl
  · rw [stop_of_not_running e _ (server_not_running_of_unbound e.w p hload halive hsub)]
    refine ⟨rfl, ?_⟩
    intro x hx
    rcases List.mem_pair.mp hx with h1 | h2
    · rw [h1]; rfl
    · rw [h2]; rfl

/-- C9 witness: stop with the pid file absent. -/
theorem C9_witness :
    isNoopNotRunning (stop ⟨⟨PidFileState.missing, fun _ => false, []⟩, false, false⟩) :=
  C9_idempotent_stop _ (Or.inl rfl)

/-- C1: the claim says the daemon builds resources exactly once; but
parse_request invokes build_resources on every request, so a daemon that
starts up and then handles a single request has invoked build_resources
twice. The bundle built in run_server before the accept loop is never
consulted. -/
theorem C1_resources_rebuilt_per_request {Template : Type}
    (gtc : List Char → Template → List Char) (tmpl : Template)
    (q : List Char) :
    daemon_build_count gtc tmpl [q] = 2 := rfl

/-- C2: the claim says foreground start writes the pid file only after the
listening socket is bound; at a concrete foreground start the bind does
not precede the pid-file write (the write is the very first step, while
the socket is still unbound). -/
theorem C2_counterexample :
    (start ⟨PidFileState.missing, fun _ => false, []⟩ false 4242).map
        (fun evs => decide (idxBindSocket evs < idxSavePid evs)) =
      Except.ok false := rfl

/-- C2 (amended): in foreground start from a not-running state, the pid
file for the current process id is written first, before resources are
built and before the socket is bound; the accept loop is entered only
after the bind. -/
theorem C2_amended_pid_written_before_bind (w : World) (p : Int)
    (effs : List Effect)
    (h : is_server_running w = Except.ok (false, effs)) :
    start w false p = Except.ok (StartEvent.savePid p :: run_server_events) ∧
    idxSavePid (StartEvent.savePid p :: run_server_events) <
      idxBindSocket (StartEvent.savePid p :: run_server_events) ∧
    idxBindSocket (StartEvent.savePid p :: run_server_events) <
      idxAcceptLoop (StartEvent.savePid p :: run_server_events) := by
  refine ⟨?_, ?_, ?_⟩
  · unfold start
    rw [h]
    rfl
  · show (0 : Nat) < 2
    decide
  · show (2 : Nat) < 4
    decide

/-- C2 witness: foreground start with no pid file recorded. -/
theorem C2_amended_witness :
    start ⟨PidFileState.missing, fun _ => false, []⟩ false 4242 =
      Except.ok (StartEvent.savePid 4242 :: run_server_events) ∧
    idxSavePid (StartEvent.savePid 4242 :: run_server_events) <
      idxBindSocket (StartEvent.savePid 4242 :: run_server_events) ∧
    idxBindSocket (StartEvent.savePid 4242 :: run_server_events) <
      idxAcceptLoop (StartEvent.savePid 4242 :: run_server_events) :=
  C2_amended_pid_written_before_bind _ 4242 [] (server_not_running_of_missing _ rfl)

/-- C3: the claim says a failure during send, after a successful connect,
propagates as an error; but the blanket except clause catches it and the
client falls back to local resolution, returning normally. -/
theorem C3_counterexample :
    query (fun _ _ => ['l', 's']) () ⟨PidFileState.validJson
        (Json.obj [("pid", Json.int 77)]), fun p => p == 77, ['7', '7']⟩
        ExchangeOutcome.sendFails ['h', 'i'] =
      Except.ok ⟨['l', 's'], true, true,
        [ClientMsg.errorConnecting, ClientMsg.fallingBackLocal]⟩ := rfl

/-- C3 (amended): when the daemon check succeeded, every failure in the
exchange, whether at connect, send or receive, is caught by the one
blanket handler: the client echoes the two diagnostic messages and falls
back to local resolution; nothing propagates to the caller. -/
theorem C3_amended_all_exchange_failures_fall_back {Template : Type}
    (gtc : List Char → Template → List Char) (tmpl : Template)
    (w : World) (o : ExchangeOutcome) (q : List Char) (effs : List Effect)
    (hrun : is_server_running w = Except.ok (true, effs))
    (ho : o ≠ ExchangeOutcome.allOk) :
    query gtc tmpl w o q =
      Except.ok ⟨one_off_output gtc tmpl q, true, true,
        [ClientMsg.errorConnecting, ClientMsg.fallingBackLocal]⟩ := by
  unfold query
  rw [hrun]
  cases o with
  | allOk => exact absurd rfl ho
  | connectRefused => rfl
  | connectOtherError => rfl
  | sendFails => rfl
  | recvFails => rfl

/-- C3 witness: receive failure against a live, port-bound daemon. -/
theorem C3_amended_witness :
    query (fun _ _ => ['l', 's']) () ⟨PidFileState.validJson
        (Json.obj [("pid", Json.int 77)]), fun p => p == 77, ['7', '7']⟩
        ExchangeOutcome.recvFails ['h', 'i'] =
      Except.ok ⟨one_off_output (fun _ _ => ['l', 's']) () ['h', 'i'], true, true,
        [ClientMsg.errorConnecting, ClientMsg.fallingBackLocal]⟩ :=
  C3_amended_all_exchange_failures_fall_back _ _ _ _ _ _ rfl (by decide)

/-- C4: the claim says the daemon path and the one-off path print the same
command; but the client strips the daemon response while the one-off path
prints the command verbatim, so a generator emitting a trailing blank
makes the two outputs differ. -/
theorem C4_counterexample :
    daemon_path_output (fun _ _ => ['l', 's', ' ']) () ['x'] ≠
      one_off_output (fun _ _ => ['l', 's', ' ']) () ['x'] := by decide

/-- C4 (amended): the two paths agree whenever the query fits in the 1024
byte receive buffer and the generated command also fits and is unchanged
by stripping; in general the daemon path prints the stripped, possibly
truncated command. -/
theorem C4_amended_transparency {Template : Type}
    (gtc : List Char → Template → List Char) (tmpl : Template)
    (q : List Char)
    (hq : q.length ≤ 1024)
    (hr : (gtc q tmpl).length ≤ 1024)
    (hs : pyStrip (gtc q tmpl) = gtc q tmpl) :
    daemon_path_output gtc tmpl q = one_off_output gtc tmpl q := by
  show pyStrip ((gtc (q.take 1024) tmpl).take 1024) = gtc q tmpl
  rw [List.take_of_length_le hq, List.take_of_length_le hr, hs]

/-- C4 witness: a short query and a short, already-stripped command. -/
theorem C4_amended_witness :
    daemon_path_output (fun _ _ => ['l', 's']) () ['h', 'i'] =
      one_off_output (fun _ _ => ['l', 's']) () ['h', 'i'] :=
  C4_amended_transparency _ _ _ (by decide) (by decide) (by decide)

/-- C6: the claim says the client always first attempts the connection and
decides by its outcome; but with the pid file missing the client resolves
locally at once, without attempting a connection, even in a world where
every process is alive and the connection would have succeeded. -/
theorem C6_counterexample :
    query (fun _ _ => ['l', 's']) () ⟨PidFileState.missing, fun _ => true, ['7']⟩
        ExchangeOutcome.allOk ['h'] =
      Except.ok ⟨['l', 's'], false, true, [ClientMsg.serverNotRunningLocal]⟩ := rfl

/-- C6 (amended): the decision to use the daemon is made by the prior
is_server_running check (pid file plus port inspection): a connection is
attempted exactly when that check returns true, never otherwise. -/
theorem C6_amended_dispatch_by_pid_check {Template : Type}
    (gtc : List Char → Template → List Char) (tmpl : Template)
    (w : World) (o : ExchangeOutcome) (q : List Char) :
    (query gtc tmpl w o q).map QueryResult.connectAttempted =
      (is_server_running w).map Prod.fst := by
  unfold query
  cases h : is_server_running w with
  | error e => rfl
  | ok pr =>
    obtain ⟨b, effs⟩ := pr
    cases b with
    | true => cases o <;> rfl
    | false => rfl

/-- C7: the claim says an OS error while signaling makes stop report
success; at a concrete stop where SIGTERM raises, the pid file is removed
but the report is the error message, not the success message. -/
theorem C7_counterexample :
    stop ⟨⟨PidFileState.validJson (Json.obj [("pid", Json.int 77)]),
        fun p => p == 77, ['7', '7']⟩, true, false⟩ =
      Except.ok (StopReport.errorStopping,
        [Effect.signalProc 77 0, Effect.runLsof, Effect.removePidFile]) ∧
    StopReport.errorStopping ≠ StopReport.stoppedSuccessfully :=
  ⟨rfl, by decide⟩

/-- C7 (amended): when the running check succeeded and SIGTERM raises an
OS error, stop removes the pid file but reports the error message rather
than success. -/
theorem C7_amended_cleanup_with_error_report (e : StopEnv) (effs : List Effect)
    (hrun : is_server_running e.w = Except.ok (true, effs))
    (hsig : e.sigtermRaises = true) :
    stop e = Except.ok (StopReport.errorStopping, effs ++ [Effect.removePidFile]) ∧
    Effect.removePidFile ∈ effs ++ [Effect.removePidFile] := by
  obtain ⟨p, hload, halive, hsub, heffs⟩ := running_true_inv e.w effs hrun
  constructor
  · unfold stop
    rw [hrun, hload]
    simp [hsig]
  · exact List.mem_append_right effs (List.mem_singleton_self _)

/-- C7 witness: SIGTERM raising against a live, port-bound daemon. -/
theorem C7_amended_witness :
    stop ⟨⟨PidFileState.validJson (Json.obj [("pid", Json.int 77)]),
        fun p => p == 77, ['7', '7']⟩, true, true⟩ =
      Except.ok (StopReport.errorStopping,
        [Effect.signalProc 77 0, Effect.runLsof] ++ [Effect.removePidFile]) ∧
    Effect.removePidFile ∈
      [Effect.signalProc 77 0, Effect.runLsof] ++ [Effect.removePidFile] :=
  C7_amended_cleanup_with_error_report _ _ rfl rfl

end TerminalBuddy
